import Mathlib

/-!
Verification of the token-refresh concurrency controller of the task-manager
frontend (the axios API-configuration module: `tokenManager`, the request
interceptor, and the single-flight 401 response interceptor).

The JavaScript runtime is a single-threaded event loop, so every synchronous
segment of an interceptor handler executes atomically.  The response-error
handler has exactly one suspension point: the `await axios.post(...)` of the
refresh exchange.  We therefore embed the handler as two pure functions:

* `onResponseError` — the synchronous segment from entry up to (and
  including) launching the refresh POST, or up to a synchronous rejection;
* `onRefreshSettled` — the continuation that runs when the refresh POST
  settles (the code after the `await`, the `catch`, and the `finally`).

Network activity, toasts and navigation are recorded as `Effect`s; the
resolution delivered to each queued waiter is recorded as a `WaiterOutcome`,
and the waiter's own `.then/.catch` continuation is `waiterContinuation`.
JavaScript truthiness of strings (the empty string is falsy) is modelled
explicitly wherever the source branches on a token value.
-/

/-- The credential store backed by cookies (`tokenManager`'s two cookies).
A field is `none` when the cookie is absent. -/
structure Store where
  accessTok : Option String
  refreshTok : Option String
deriving Repr, DecidableEq

namespace tokenManager

/-- `getToken`: `Cookies.get(TOKEN_KEY) || null` — an absent cookie gives
`undefined`, and an empty string is falsy, so both collapse to `null`. -/
def getToken (s : Store) : Option String :=
  match s.accessTok with
  | some t => if t = "" then none else some t
  | none => none

/-- `getRefreshToken`: `Cookies.get(REFRESH_TOKEN_KEY) || null`. -/
def getRefreshToken (s : Store) : Option String :=
  match s.refreshTok with
  | some t => if t = "" then none else some t
  | none => none

/-- `setToken`: writes the access-token cookie. -/
def setToken (s : Store) (t : String) : Store :=
  { s with accessTok := some t }

/-- `setRefreshToken`: writes the refresh-token cookie. -/
def setRefreshToken (s : Store) (t : String) : Store :=
  { s with refreshTok := some t }

/-- `clearAll`: removes both cookies. -/
def clearAll (_s : Store) : Store :=
  { accessTok := none, refreshTok := none }

end tokenManager

/-- The slice of an axios request config the interceptors read or write:
the target, the `Authorization` header, and the custom `_retry` marker. -/
structure ReqConfig where
  url : String
  authHeader : Option String
  retryFlag : Bool
deriving Repr, DecidableEq

/-- The request interceptor: read the access token; when present (and
truthy), set `Authorization: Bearer <token>`; otherwise pass the config
through unchanged. -/
def requestInterceptor (store : Store) (cfg : ReqConfig) : ReqConfig :=
  match tokenManager.getToken store with
  | some token => { cfg with authHeader := some ("Bearer " ++ token) }
  | none => cfg

/-- An axios rejection as the response interceptor sees it: the failing
request's config (`error.config`) and the HTTP status of the response when
the server answered (`error.response?.status`); `none` models a network
error with no response. -/
structure ApiError where
  cfg : ReqConfig
  status : Option Nat
deriving Repr, DecidableEq

/-- An entry of `failedQueue`: the queued caller's identity together with
the original request config captured by its promise closure. -/
structure Waiter where
  wid : Nat
  cfg : ReqConfig
deriving Repr, DecidableEq

/-- The module-level mutable state of the response interceptor:
`isRefreshing` and `failedQueue`. -/
structure RefreshState where
  isRefreshing : Bool
  failedQueue : List Waiter
deriving Repr, DecidableEq

/-- Observable side effects of a handler segment. -/
inductive Effect where
  /-- the bare `axios.post(API_BASE_URL + refresh path, \x7brefresh_token\x7d)` -/
  | refreshPost (refreshToken : String)
  /-- `api(originalRequest)`: re-dispatch through the intercepted instance -/
  | replay (cfg : ReqConfig)
  | toast (msg : String)
  /-- `window.location.href = path` -/
  | redirect (path : String)
deriving Repr, DecidableEq

/-- The resolution `processQueue` delivers to one queued waiter. -/
inductive WaiterOutcome where
  | resolvedWith (token : Option String)
  | rejectedWith (e : ApiError)
deriving Repr, DecidableEq

/-- `processQueue(error, token)`: reject every queued waiter with `error`
when it is non-null, otherwise resolve every waiter with `token`.  (The
caller-side reset `failedQueue = []` is part of each handler segment.) -/
def processQueue (q : List Waiter) (err : Option ApiError) (token : Option String) :
    List (Waiter × WaiterOutcome) :=
  q.map fun w =>
    (w, match err with
        | some e => WaiterOutcome.rejectedWith e
        | none => WaiterOutcome.resolvedWith token)

/-- How a handler segment leaves the caller's promise. -/
inductive HandlerResult where
  /-- `Promise.reject(e)` -/
  | rejected (e : ApiError)
  /-- parked on `failedQueue`, awaiting `processQueue` -/
  | queuedWaiter (w : Waiter)
  /-- the handler launched the refresh POST and is awaiting it -/
  | refreshStarted (refreshToken : String)
  /-- `return api(cfg)`: the caller's promise becomes the replay's -/
  | replayed (cfg : ReqConfig)
deriving Repr, DecidableEq

/-- The toasts of the trailing "Handle other errors" section: 403, 404,
and `status && status >= 500`. -/
def otherErrorToasts (status : Option Nat) : List Effect :=
  match status with
  | some 403 => [Effect.toast "Access denied"]
  | some 404 => [Effect.toast "Resource not found"]
  | some s => if 500 ≤ s then [Effect.toast "Server error. Please try again later."] else []
  | none => []

/-- The output of one synchronous handler segment. -/
structure Phase1Out where
  state : RefreshState
  store : Store
  effects : List Effect
  settledWaiters : List (Waiter × WaiterOutcome)
  result : HandlerResult
deriving Repr, DecidableEq

/-- `originalRequest._retry = true`. -/
def markRetry (cfg : ReqConfig) : ReqConfig :=
  { cfg with retryFlag := true }

/-- The synchronous segment of the response-error handler, from entry up to
its first suspension point or synchronous return, mirroring the source:

* `status === 401 && !originalRequest._retry`:
  * if `isRefreshing`: push `\x7bresolve, reject\x7d` onto `failedQueue` and park;
  * else set `_retry` and `isRefreshing`; read the refresh token;
    * absent: `clearAll`, `processQueue(error)`, redirect to the login page,
      and reject with the original error (note: this early return skips the
      `finally`, so `isRefreshing` stays `true`);
    * present: launch the bare `axios.post` refresh exchange and await it;
* otherwise: emit the 403/404/5xx toast when applicable and reject with the
  same error the transport produced. -/
def onResponseError (st : RefreshState) (store : Store) (err : ApiError) (wid : Nat) :
    Phase1Out :=
  if err.status = some 401 ∧ err.cfg.retryFlag = false then
    if st.isRefreshing then
      { state := { st with failedQueue := st.failedQueue ++ [⟨wid, err.cfg⟩] }
        store := store
        effects := []
        settledWaiters := []
        result := HandlerResult.queuedWaiter ⟨wid, err.cfg⟩ }
    else
      match tokenManager.getRefreshToken store with
      | none =>
        { state := { isRefreshing := true, failedQueue := [] }
          store := tokenManager.clearAll store
          effects := [Effect.redirect "/auth/login"]
          settledWaiters := processQueue st.failedQueue (some err) none
          result := HandlerResult.rejected err }
      | some rt =>
        { state := { isRefreshing := true, failedQueue := st.failedQueue }
          store := store
          effects := [Effect.refreshPost rt]
          settledWaiters := []
          result := HandlerResult.refreshStarted rt }
  else
    { state := st
      store := store
      effects := otherErrorToasts err.status
      settledWaiters := []
      result := HandlerResult.rejected err }

/-- The shape of the refresh endpoint's success body:
`\x7b access_token, refresh_token \x7d`, the latter possibly omitted. -/
structure RefreshResponse where
  access_token : String
  refresh_token : Option String
deriving Repr, DecidableEq

/-- How the awaited refresh POST settles. -/
inductive RefreshOutcome where
  | ok (r : RefreshResponse)
  | fail (refreshError : ApiError)
deriving Repr, DecidableEq

/-- The continuation after the `await` of the refresh POST (`origErr` is the
original 401 rejection still in scope in the handler's closure):

* success: `setToken(access_token)`; `if (newRefreshToken)` (truthy, so a
  missing or empty value leaves the old cookie) `setRefreshToken`;
  `processQueue(null, access_token)`; set the `Authorization` header on the
  original request and `return api(originalRequest)`;
* failure: `clearAll`, `processQueue(refreshError)`, toast and redirect to
  the login page, and reject with `refreshError`;
* either way the `finally` resets `isRefreshing` and the queue is empty. -/
def onRefreshSettled (st : RefreshState) (store : Store) (origErr : ApiError)
    (out : RefreshOutcome) : Phase1Out :=
  match out with
  | RefreshOutcome.ok r =>
    let store1 := tokenManager.setToken store r.access_token
    let store2 := match r.refresh_token with
      | some nrt => if nrt = "" then store1 else tokenManager.setRefreshToken store1 nrt
      | none => store1
    let replayCfg :=
      { markRetry origErr.cfg with authHeader := some ("Bearer " ++ r.access_token) }
    { state := { isRefreshing := false, failedQueue := [] }
      store := store2
      effects := [Effect.replay replayCfg]
      settledWaiters := processQueue st.failedQueue none (some r.access_token)
      result := HandlerResult.replayed replayCfg }
  | RefreshOutcome.fail rerr =>
    { state := { isRefreshing := false, failedQueue := [] }
      store := tokenManager.clearAll store
      effects := [Effect.toast "Session expired. Please login again.",
                  Effect.redirect "/auth/login"]
      settledWaiters := processQueue st.failedQueue (some rerr) none
      result := HandlerResult.rejected rerr }

/-- What a parked waiter's own continuation does with its resolution:
`.then((token) => \x7b if (originalRequest && token) \x7b set header; return
api(originalRequest) \x7d \x7d).catch((err) => Promise.reject(err))`.
A falsy token (null or empty) resolves the waiter with `undefined` and no
replay; note the waiter's config is replayed with its `_retry` flag as it
was — the flag is never set on queued requests. -/
inductive WaiterFinal where
  | replayDispatched (cfg : ReqConfig)
  | resolvedUndefined
  | rejectedErr (e : ApiError)
deriving Repr, DecidableEq

/-- See `WaiterFinal`. -/
def waiterContinuation (w : Waiter) (out : WaiterOutcome) : WaiterFinal :=
  match out with
  | WaiterOutcome.resolvedWith (some token) =>
    if token = "" then WaiterFinal.resolvedUndefined
    else WaiterFinal.replayDispatched { w.cfg with authHeader := some ("Bearer " ++ token) }
  | WaiterOutcome.resolvedWith none => WaiterFinal.resolvedUndefined
  | WaiterOutcome.rejectedWith e => WaiterFinal.rejectedErr e

/-- Count of refresh POSTs among recorded effects. -/
def countRefreshPosts (effs : List Effect) : Nat :=
  (effs.filter fun e => match e with | Effect.refreshPost _ => true | _ => false).length

/-- Count of replays dispatched among recorded effects. -/
def countReplays (effs : List Effect) : Nat :=
  (effs.filter fun e => match e with | Effect.replay _ => true | _ => false).length

/-- Accumulated observation of a burst of handler activations. -/
structure BurstOut where
  state : RefreshState
  store : Store
  effects : List Effect
  results : List HandlerResult
deriving Repr, DecidableEq

/-- A burst of transport rejections delivered to the response interceptor
one event-loop turn after another, none of which is interleaved with a
refresh settlement (the scenario "before any refresh completes"). -/
def runBurst (st : RefreshState) (store : Store) : List (Nat × ApiError) → BurstOut
  | [] => ⟨st, store, [], []⟩
  | (wid, err) :: rest =>
    let o := onResponseError st store err wid
    let R := runBurst o.state o.store rest
    ⟨R.state, R.store, o.effects ++ R.effects, o.result :: R.results⟩

/-- The timeout-relevant part of an axios call site: the target and the
configured timeout in milliseconds; `none` means the call site passes no
timeout, and the axios library default of `0` disables the timeout. -/
structure AxiosCallSetup where
  url : String
  timeout : Option Nat
deriving Repr, DecidableEq

/-- The fallback base URL (`NEXT_PUBLIC_BACKEND_URL` unset). -/
def API_BASE_URL : String := "http://localhostXXX:8000"

/-- The intercepted `api` instance: `axios.create` with `timeout: 10000`. -/
def apiInstanceSetup : AxiosCallSetup :=
  { url := API_BASE_URL, timeout := some 10000 }

/-- The refresh exchange: `axios.post(API_BASE_URL + refresh path, body)` on
the bare axios export, with no per-call config, so no timeout is set and
the `api` instance's 10000 ms timeout does not apply. -/
def refreshCallSetup : AxiosCallSetup :=
  { url := API_BASE_URL ++ "/api/v1/auth/refresh", timeout := none }

/-- Whether a call site is configured with a bounded (positive) timeout. -/
def hasBoundedTimeout (s : AxiosCallSetup) : Bool :=
  match s.timeout with
  | some t => decide (0 < t)
  | none => false

/-- The fate of the trigger request's one replay. -/
inductive ReplayResponse where
  | success
  | failure (status : Option Nat)
deriving Repr, DecidableEq

/-- End-to-end flow of one request from its first transport rejection: the
handler runs; if it launches a refresh, that refresh settles as `out`; on a
successful settlement the trigger request replays, and `rr` is the replay's
fate; a rejected replay re-enters the handler once more.  All recorded
effects are collected.  Note the refresh POST settles directly into
`onRefreshSettled` — it is issued on bare axios, not on the intercepted
instance, so its rejection (even a 401 from the refresh endpoint) never
re-enters `onResponseError`. -/
def triggerFlow (st : RefreshState) (store : Store) (err : ApiError) (wid : Nat)
    (out : RefreshOutcome) (rr : ReplayResponse) : List Effect :=
  match (onResponseError st store err wid).result with
  | HandlerResult.refreshStarted _ =>
    (match (onRefreshSettled (onResponseError st store err wid).state
              (onResponseError st store err wid).store err out).result, rr with
     | HandlerResult.replayed rcfg, ReplayResponse.failure s =>
       (onResponseError st store err wid).effects ++
         (onRefreshSettled (onResponseError st store err wid).state
           (onResponseError st store err wid).store err out).effects ++
         (onResponseError
           (onRefreshSettled (onResponseError st store err wid).state
             (onResponseError st store err wid).store err out).state
           (onRefreshSettled (onResponseError st store err wid).state
             (onResponseError st store err wid).store err out).store
           ⟨rcfg, s⟩ (wid + 1)).effects
     | _, _ =>
       (onResponseError st store err wid).effects ++
         (onRefreshSettled (onResponseError st store err wid).state
           (onResponseError st store err wid).store err out).effects)
  | _ => (onResponseError st store err wid).effects

/-- Wait-list replay trace, step 1: with a valid pair stored, request A
(`/a`) hits a 401 while the state is idle and triggers the refresh. -/
def traceA : Phase1Out :=
  onResponseError ⟨false, []⟩ ⟨some "acc0", some "ref0"⟩ ⟨⟨"/a", none, false⟩, some 401⟩ 0

/-- Step 2: request B (`/b`) hits a 401 while the refresh is in flight and
is parked on the wait list. -/
def traceB : Phase1Out :=
  onResponseError traceA.state traceA.store ⟨⟨"/b", none, false⟩, some 401⟩ 1

/-- Step 3: the refresh settles successfully with a rotated pair. -/
def traceSettle : Phase1Out :=
  onRefreshSettled traceB.state traceB.store ⟨⟨"/a", none, false⟩, some 401⟩
    (RefreshOutcome.ok ⟨"acc1", some "ref1"⟩)

/-- The config request B's waiter continuation replays: the new bearer
header is attached but `_retry` was never set on B. -/
def traceBReplayCfg : ReqConfig := ⟨"/b", some ("Bearer " ++ "acc1"), false⟩

/-- Step 4: request B's replay itself receives a 401; the state is idle
again (the `finally` ran at settlement), so B starts a second refresh. -/
def traceBSecond : Phase1Out :=
  onResponseError traceSettle.state traceSettle.store ⟨traceBReplayCfg, some 401⟩ 2

/-! ## Helper lemmas -/

theorem otherErrorToasts_counts (s : Option Nat) :
    countRefreshPosts (otherErrorToasts s) = 0 ∧ countReplays (otherErrorToasts s) = 0 := by
  cases s with
  | none => simp [otherErrorToasts, countRefreshPosts, countReplays]
  | some v =>
    simp only [otherErrorToasts]
    split <;> simp [countRefreshPosts, countReplays]

theorem otherErrorToasts_only_toasts (s : Option Nat) :
    ∀ e ∈ otherErrorToasts s, ∃ m, e = Effect.toast m := by
  cases s with
  | none => simp [otherErrorToasts]
  | some v =>
    simp only [otherErrorToasts]
    split <;> simp

theorem onResponseError_refreshStarted_effects (st : RefreshState) (store : Store)
    (err : ApiError) (wid : Nat) (rt : String)
    (h : (onResponseError st store err wid).result = HandlerResult.refreshStarted rt) :
    (onResponseError st store err wid).effects = [Effect.refreshPost rt] := by
  unfold onResponseError at h ⊢
  split at h
  · split at h
    · simp at h
    · split at h <;> simp_all
  · simp_all

theorem onResponseError_not_refreshStarted_counts (st : RefreshState) (store : Store)
    (err : ApiError) (wid : Nat)
    (h : ∀ rt, (onResponseError st store err wid).result ≠ HandlerResult.refreshStarted rt) :
    countRefreshPosts (onResponseError st store err wid).effects = 0 ∧
    countReplays (onResponseError st store err wid).effects = 0 := by
  unfold onResponseError at h ⊢
  split
  · split
    · simp [countRefreshPosts, countReplays]
    · split
      · simp [countRefreshPosts, countReplays]
      · simp_all
  · exact otherErrorToasts_counts err.status

theorem onRefreshSettled_replayed (st : RefreshState) (store : Store) (origErr : ApiError)
    (out : RefreshOutcome) (rcfg : ReqConfig)
    (h : (onRefreshSettled st store origErr out).result = HandlerResult.replayed rcfg) :
    rcfg.retryFlag = true ∧
    (onRefreshSettled st store origErr out).effects = [Effect.replay rcfg] := by
  cases out with
  | ok r =>
    simp only [onRefreshSettled] at h ⊢
    simp only [HandlerResult.replayed.injEq] at h
    subst h
    simp [markRetry]
  | fail rerr => simp [onRefreshSettled] at h

theorem runBurst_refreshing (store : Store) (errs : List (Nat × ApiError)) :
    ∀ q : List Waiter,
      (∀ p ∈ errs, p.2.status = some 401 ∧ p.2.cfg.retryFlag = false) →
      runBurst ⟨true, q⟩ store errs =
        ⟨⟨true, q ++ errs.map fun p => ⟨p.1, p.2.cfg⟩⟩, store, [],
         errs.map fun p => HandlerResult.queuedWaiter ⟨p.1, p.2.cfg⟩⟩ := by
  induction errs with
  | nil => intro q _; simp [runBurst]
  | cons hd tl ih =>
    intro q h
    obtain ⟨wid, err⟩ := hd
    obtain ⟨h1, h2⟩ := h _ (List.mem_cons_self _ _)
    have h1e : err.status = some 401 := h1
    have h2e : err.cfg.retryFlag = false := h2
    have hstep : onResponseError ⟨true, q⟩ store err wid =
        { state := ⟨true, q ++ [⟨wid, err.cfg⟩]⟩, store := store, effects := [],
          settledWaiters := [], result := HandlerResult.queuedWaiter ⟨wid, err.cfg⟩ } := by
      simp [onResponseError, h1e, h2e]
    have htl : ∀ p ∈ tl, p.2.status = some 401 ∧ p.2.cfg.retryFlag = false :=
      fun p hp => h p (List.mem_cons_of_mem _ hp)
    simp only [runBurst, hstep]
    rw [ih (q ++ [Waiter.mk wid err.cfg]) htl]
    simp

theorem countRefreshPosts_append (a b : List Effect) :
    countRefreshPosts (a ++ b) = countRefreshPosts a + countRefreshPosts b := by
  simp [countRefreshPosts, List.filter_append]

theorem countReplays_append (a b : List Effect) :
    countReplays (a ++ b) = countReplays a + countReplays b := by
  simp [countReplays, List.filter_append]

theorem onResponseError_retryFlag_true (st : RefreshState) (store : Store) (err : ApiError)
    (wid : Nat) (h : err.cfg.retryFlag = true) :
    onResponseError st store err wid =
      { state := st, store := store, effects := otherErrorToasts err.status,
        settledWaiters := [], result := HandlerResult.rejected err } := by
  have hcond : ¬(err.status = some 401 ∧ err.cfg.retryFlag = false) := by simp [h]
  unfold onResponseError
  rw [if_neg hcond]

theorem onRefreshSettled_counts (st : RefreshState) (store : Store) (origErr : ApiError)
    (out : RefreshOutcome) :
    countRefreshPosts (onRefreshSettled st store origErr out).effects = 0 ∧
    countReplays (onRefreshSettled st store origErr out).effects ≤ 1 := by
  cases out <;> simp [onRefreshSettled, countRefreshPosts, countReplays]

/-! ## Claim theorems -/

/-- Claim C9: for every outgoing request, when the credential store holds a
(truthy) access token the request interceptor sets the `Authorization`
header to `Bearer ` followed by that token and changes nothing else; when
it holds none, the request is passed through unmodified. -/
theorem C9_credential_attachment (store : Store) (cfg : ReqConfig) :
    (∀ t, tokenManager.getToken store = some t →
      requestInterceptor store cfg = { cfg with authHeader := some ("Bearer " ++ t) }) ∧
    (tokenManager.getToken store = none → requestInterceptor store cfg = cfg) := by
  constructor
  · intro t ht
    simp [requestInterceptor, ht]
  · intro h
    simp [requestInterceptor, h]

/-- Witness for C9 at a concrete store and request. -/
theorem C9_credential_attachment_witness :
    tokenManager.getToken ⟨some "tok", some "ref"⟩ = some "tok" ∧
    requestInterceptor ⟨some "tok", some "ref"⟩ ⟨"/tasks", none, false⟩
      = ⟨"/tasks", some "Bearer tok", false⟩ :=
  ⟨rfl, (C9_credential_attachment ⟨some "tok", some "ref"⟩ ⟨"/tasks", none, false⟩).1 "tok" rfl⟩

/-- Claim C4: a 401 on a request whose `_retry` flag is already set neither
starts a refresh nor enqueues the request: the handler leaves the state and
store untouched, performs no effect, and rejects with the error itself. -/
theorem C4_no_replay_loop (st : RefreshState) (store : Store) (err : ApiError) (wid : Nat)
    (h401 : err.status = some 401) (hretry : err.cfg.retryFlag = true) :
    onResponseError st store err wid =
      { state := st, store := store, effects := [], settledWaiters := [],
        result := HandlerResult.rejected err } := by
  simp [onResponseError, h401, hretry, otherErrorToasts]

/-- Witness for C4: a replayed request's second 401 is terminal. -/
theorem C4_no_replay_loop_witness :
    (⟨⟨"/t", some "Bearer a", true⟩, some 401⟩ : ApiError).status = some 401 ∧
    (⟨⟨"/t", some "Bearer a", true⟩, some 401⟩ : ApiError).cfg.retryFlag = true ∧
    onResponseError ⟨false, []⟩ ⟨some "a", some "r"⟩
        ⟨⟨"/t", some "Bearer a", true⟩, some 401⟩ 5 =
      { state := ⟨false, []⟩, store := ⟨some "a", some "r"⟩, effects := [],
        settledWaiters := [],
        result := HandlerResult.rejected ⟨⟨"/t", some "Bearer a", true⟩, some 401⟩ } :=
  ⟨rfl, rfl, C4_no_replay_loop ⟨false, []⟩ ⟨some "a", some "r"⟩
    ⟨⟨"/t", some "Bearer a", true⟩, some 401⟩ 5 rfl rfl⟩

/-- Claim C5: after a successful refresh the stored access token equals the
response's `access_token`, and when the response omits `refresh_token` the
stored refresh token is left exactly as it was. -/
theorem C5_refresh_credential_preservation (st : RefreshState) (store : Store)
    (origErr : ApiError) (r : RefreshResponse) :
    ((onRefreshSettled st store origErr (RefreshOutcome.ok r)).store.accessTok
        = some r.access_token) ∧
    (r.refresh_token = none →
      (onRefreshSettled st store origErr (RefreshOutcome.ok r)).store.refreshTok
        = store.refreshTok) := by
  constructor
  · cases h : r.refresh_token with
    | none => simp [onRefreshSettled, tokenManager.setToken, h]
    | some nrt =>
      by_cases hn : nrt = "" <;>
        simp [onRefreshSettled, tokenManager.setToken, tokenManager.setRefreshToken, h, hn]
  · intro h
    simp [onRefreshSettled, tokenManager.setToken, h]

/-- Witness for C5: a refresh response with no `refresh_token` field leaves
the stored refresh token in place. -/
theorem C5_refresh_credential_preservation_witness :
    ((RefreshResponse.mk "newacc" none).refresh_token = none) ∧
    (onRefreshSettled ⟨true, []⟩ ⟨some "oldacc", some "oldref"⟩
        ⟨⟨"/t", none, false⟩, some 401⟩
        (RefreshOutcome.ok ⟨"newacc", none⟩)).store.accessTok = some "newacc" ∧
    (onRefreshSettled ⟨true, []⟩ ⟨some "oldacc", some "oldref"⟩
        ⟨⟨"/t", none, false⟩, some 401⟩
        (RefreshOutcome.ok ⟨"newacc", none⟩)).store.refreshTok = some "oldref" := by
  have h := C5_refresh_credential_preservation ⟨true, []⟩ ⟨some "oldacc", some "oldref"⟩
    ⟨⟨"/t", none, false⟩, some 401⟩ ⟨"newacc", none⟩
  exact ⟨rfl, h.1, h.2 rfl⟩

/-- Claim C8: a rejection whose status is not 401 (403, 404, 5xx, or a
network error with no response) neither refreshes nor retries: the state,
store and queue are untouched, the only effects are toasts, and the very
same error is rejected back to the caller. -/
theorem C8_non_authorization_passthrough (st : RefreshState) (store : Store)
    (err : ApiError) (wid : Nat) (h : err.status ≠ some 401) :
    (onResponseError st store err wid).result = HandlerResult.rejected err ∧
    (onResponseError st store err wid).state = st ∧
    (onResponseError st store err wid).store = store ∧
    (onResponseError st store err wid).settledWaiters = [] ∧
    ∀ e ∈ (onResponseError st store err wid).effects, ∃ m, e = Effect.toast m := by
  have hcond : ¬(err.status = some 401 ∧ err.cfg.retryFlag = false) := fun hc => h hc.1
  unfold onResponseError
  rw [if_neg hcond]
  exact ⟨rfl, rfl, rfl, rfl, otherErrorToasts_only_toasts err.status⟩

/-- Witness for C8 at a concrete 404 rejection. -/
theorem C8_non_authorization_passthrough_witness :
    (⟨⟨"/missing", some "Bearer a", false⟩, some 404⟩ : ApiError).status ≠ some 401 ∧
    (onResponseError ⟨false, []⟩ ⟨some "a", some "r"⟩
        ⟨⟨"/missing", some "Bearer a", false⟩, some 404⟩ 3).result
      = HandlerResult.rejected ⟨⟨"/missing", some "Bearer a", false⟩, some 404⟩ :=
  ⟨by decide,
   (C8_non_authorization_passthrough ⟨false, []⟩ ⟨some "a", some "r"⟩
     ⟨⟨"/missing", some "Bearer a", false⟩, some 404⟩ 3 (by decide)).1⟩

/-- Counterexample to C2 as stated: when the refresh call fails, the
handler rejects the caller's promise with the refresh call's own error
(`return Promise.reject(refreshError)`), not with the original 401 that is
still in scope. -/
theorem C2_counterexample :
    (onRefreshSettled ⟨true, []⟩ ⟨some "acc0", some "ref0"⟩
        ⟨⟨"/tasks", some "Bearer acc0", false⟩, some 401⟩
        (RefreshOutcome.fail ⟨⟨"/api/v1/auth/refresh", none, false⟩, some 401⟩)).result
      = HandlerResult.rejected ⟨⟨"/api/v1/auth/refresh", none, false⟩, some 401⟩ ∧
    (onRefreshSettled ⟨true, []⟩ ⟨some "acc0", some "ref0"⟩
        ⟨⟨"/tasks", some "Bearer acc0", false⟩, some 401⟩
        (RefreshOutcome.fail ⟨⟨"/api/v1/auth/refresh", none, false⟩, some 401⟩)).result
      ≠ HandlerResult.rejected ⟨⟨"/tasks", some "Bearer acc0", false⟩, some 401⟩ := by
  constructor
  · rfl
  · decide

/-- Amended C2: when the single-flight refresh fails, session teardown runs
(both cookies cleared, toast, redirect to `/auth/login`, `isRefreshing`
reset) and the caller's promise is rejected with the refresh call's own
error — the original 401 is not the surfaced rejection. -/
theorem C2_refresh_failure_teardown (st : RefreshState) (store : Store)
    (origErr rerr : ApiError) :
    (onRefreshSettled st store origErr (RefreshOutcome.fail rerr)).store
      = ⟨none, none⟩ ∧
    Effect.redirect "/auth/login"
      ∈ (onRefreshSettled st store origErr (RefreshOutcome.fail rerr)).effects ∧
    (onRefreshSettled st store origErr (RefreshOutcome.fail rerr)).result
      = HandlerResult.rejected rerr ∧
    (onRefreshSettled st store origErr (RefreshOutcome.fail rerr)).state
      = ⟨false, []⟩ := by
  simp [onRefreshSettled, tokenManager.clearAll]

/-- Claim C1: single-flight — for a burst of N ≥ 2 requests that each get a
401 while no refresh is in flight and a refresh credential is stored,
exactly one refresh POST is performed: the first handler marks the refresh
in flight and launches the exchange, and every later handler observes the
flight and is parked on the wait list. -/
theorem C1_single_flight (store : Store) (rt : String) (errs : List (Nat × ApiError))
    (hrt : tokenManager.getRefreshToken store = some rt)
    (h2 : 2 ≤ errs.length)
    (h401 : ∀ p ∈ errs, p.2.status = some 401 ∧ p.2.cfg.retryFlag = false) :
    countRefreshPosts (runBurst ⟨false, []⟩ store errs).effects = 1 ∧
    (runBurst ⟨false, []⟩ store errs).results.head?
      = some (HandlerResult.refreshStarted rt) ∧
    (∀ r ∈ (runBurst ⟨false, []⟩ store errs).results.tail,
      ∃ w, r = HandlerResult.queuedWaiter w) ∧
    (runBurst ⟨false, []⟩ store errs).state.failedQueue.length = errs.length - 1 ∧
    (runBurst ⟨false, []⟩ store errs).state.isRefreshing = true := by
  cases errs with
  | nil => simp at h2
  | cons hd tl =>
    obtain ⟨wid, err⟩ := hd
    have h1e : err.status = some 401 := (h401 _ (List.mem_cons_self _ _)).1
    have h2e : err.cfg.retryFlag = false := (h401 _ (List.mem_cons_self _ _)).2
    have hstep : onResponseError ⟨false, []⟩ store err wid =
        { state := ⟨true, []⟩, store := store, effects := [Effect.refreshPost rt],
          settledWaiters := [], result := HandlerResult.refreshStarted rt } := by
      simp [onResponseError, h1e, h2e, hrt]
    have htl : ∀ p ∈ tl, p.2.status = some 401 ∧ p.2.cfg.retryFlag = false :=
      fun p hp => h401 p (List.mem_cons_of_mem _ hp)
    have hrest := runBurst_refreshing store tl [] htl
    simp only [runBurst, hstep, hrest]
    refine ⟨?_, ?_, ?_, ?_, ?_⟩
    · simp [countRefreshPosts]
    · simp
    · intro r hr
      simp only [List.tail_cons, List.mem_map] at hr
      obtain ⟨p, _, hpe⟩ := hr
      exact ⟨_, hpe.symm⟩
    · simp
    · simp

/-- Witness for C1: two concurrent 401s, one refresh POST, one parked
waiter. -/
theorem C1_single_flight_witness :
    tokenManager.getRefreshToken ⟨some "acc0", some "ref0"⟩ = some "ref0" ∧
    2 ≤ ([((0 : Nat), (⟨⟨"/a", none, false⟩, some 401⟩ : ApiError)),
          (1, ⟨⟨"/b", none, false⟩, some 401⟩)]).length ∧
    countRefreshPosts (runBurst ⟨false, []⟩ ⟨some "acc0", some "ref0"⟩
      [(0, ⟨⟨"/a", none, false⟩, some 401⟩),
       (1, ⟨⟨"/b", none, false⟩, some 401⟩)]).effects = 1 ∧
    (runBurst ⟨false, []⟩ ⟨some "acc0", some "ref0"⟩
      [(0, ⟨⟨"/a", none, false⟩, some 401⟩),
       (1, ⟨⟨"/b", none, false⟩, some 401⟩)]).state.failedQueue.length = 1 := by
  have h := C1_single_flight ⟨some "acc0", some "ref0"⟩ "ref0"
    [(0, ⟨⟨"/a", none, false⟩, some 401⟩), (1, ⟨⟨"/b", none, false⟩, some 401⟩)]
    rfl (by decide) (by decide)
  exact ⟨rfl, by decide, h.1, h.2.2.2.1⟩

/-- Claim C3: no lost waiters — at settlement, `processQueue` resolves
each parked waiter exactly once (the settlement list enumerates the wait
list itself, in order), the wait list is emptied, on success every waiter
is resumed with the new access token and its continuation replays its
original request with the new bearer header, and on failure every waiter
is rejected with the refresh failure. -/
theorem C3_no_lost_waiters (st : RefreshState) (store : Store) (origErr : ApiError)
    (out : RefreshOutcome) :
    ((onRefreshSettled st store origErr out).settledWaiters.map Prod.fst
        = st.failedQueue) ∧
    ((onRefreshSettled st store origErr out).state.failedQueue = []) ∧
    (∀ r, out = RefreshOutcome.ok r →
      ∀ p ∈ (onRefreshSettled st store origErr out).settledWaiters,
        p.2 = WaiterOutcome.resolvedWith (some r.access_token) ∧
        (r.access_token ≠ "" →
          waiterContinuation p.1 p.2 = WaiterFinal.replayDispatched
            { p.1.cfg with authHeader := some ("Bearer " ++ r.access_token) })) ∧
    (∀ e, out = RefreshOutcome.fail e →
      ∀ p ∈ (onRefreshSettled st store origErr out).settledWaiters,
        p.2 = WaiterOutcome.rejectedWith e) := by
  refine ⟨?_, ?_, ?_, ?_⟩
  · cases out <;>
      · simp only [onRefreshSettled, processQueue, List.map_map]
        exact List.map_id _
  · cases out <;> simp [onRefreshSettled]
  · rintro r rfl p hp
    simp only [onRefreshSettled, processQueue, List.mem_map] at hp
    obtain ⟨w, _, hpe⟩ := hp
    subst hpe
    refine ⟨rfl, fun hne => ?_⟩
    simp [waiterContinuation, hne]
  · rintro e rfl p hp
    simp only [onRefreshSettled, processQueue, List.mem_map] at hp
    obtain ⟨w, _, hpe⟩ := hp
    subst hpe
    rfl

/-- Witness for C3: one parked waiter, successful settlement, resumed and
replayed with the new bearer header; the wait list ends empty. -/
theorem C3_no_lost_waiters_witness :
    (onRefreshSettled ⟨true, [⟨1, ⟨"/b", none, false⟩⟩]⟩ ⟨some "a0", some "r0"⟩
        ⟨⟨"/a", none, false⟩, some 401⟩
        (RefreshOutcome.ok ⟨"a1", none⟩)).settledWaiters.map Prod.fst
      = [⟨1, ⟨"/b", none, false⟩⟩] ∧
    (onRefreshSettled ⟨true, [⟨1, ⟨"/b", none, false⟩⟩]⟩ ⟨some "a0", some "r0"⟩
        ⟨⟨"/a", none, false⟩, some 401⟩
        (RefreshOutcome.ok ⟨"a1", none⟩)).state.failedQueue = [] ∧
    (onRefreshSettled ⟨true, [⟨1, ⟨"/b", none, false⟩⟩]⟩ ⟨some "a0", some "r0"⟩
        ⟨⟨"/a", none, false⟩, some 401⟩
        (RefreshOutcome.ok ⟨"a1", none⟩)).settledWaiters
      = [(⟨1, ⟨"/b", none, false⟩⟩, WaiterOutcome.resolvedWith (some "a1"))] ∧
    waiterContinuation ⟨1, ⟨"/b", none, false⟩⟩ (WaiterOutcome.resolvedWith (some "a1"))
      = WaiterFinal.replayDispatched ⟨"/b", some ("Bearer " ++ "a1"), false⟩ := by
  have h := C3_no_lost_waiters ⟨true, [⟨1, ⟨"/b", none, false⟩⟩]⟩ ⟨some "a0", some "r0"⟩
    ⟨⟨"/a", none, false⟩, some 401⟩ (RefreshOutcome.ok ⟨"a1", none⟩)
  have h3 := h.2.2.1 ⟨"a1", none⟩ rfl
    (⟨1, ⟨"/b", none, false⟩⟩, WaiterOutcome.resolvedWith (some "a1")) (by decide)
  exact ⟨h.1, h.2.1, rfl, h3.2 (by decide)⟩

/-- Claim C6: when a 401 is handled while no refresh is in flight and no
refresh credential is stored, no refresh POST is made: both cookies are
cleared, every parked waiter is rejected with the original error, the
browser is redirected to `/auth/login`, and the caller's promise is
rejected with the original 401.  (The early return also skips the
`finally`, leaving `isRefreshing` set.) -/
theorem C6_no_refresh_credential (st : RefreshState) (store : Store) (err : ApiError)
    (wid : Nat)
    (hidle : st.isRefreshing = false)
    (hnort : tokenManager.getRefreshToken store = none)
    (h401 : err.status = some 401) (hretry : err.cfg.retryFlag = false) :
    onResponseError st store err wid =
      { state := ⟨true, []⟩, store := ⟨none, none⟩,
        effects := [Effect.redirect "/auth/login"],
        settledWaiters := processQueue st.failedQueue (some err) none,
        result := HandlerResult.rejected err } ∧
    countRefreshPosts (onResponseError st store err wid).effects = 0 ∧
    ∀ p ∈ (onResponseError st store err wid).settledWaiters,
      p.2 = WaiterOutcome.rejectedWith err := by
  have heq : onResponseError st store err wid =
      { state := ⟨true, []⟩, store := ⟨none, none⟩,
        effects := [Effect.redirect "/auth/login"],
        settledWaiters := processQueue st.failedQueue (some err) none,
        result := HandlerResult.rejected err } := by
    simp [onResponseError, h401, hretry, hidle, hnort, tokenManager.clearAll]
  refine ⟨heq, ?_, ?_⟩
  · rw [heq]
    simp [countRefreshPosts]
  · rw [heq]
    intro p hp
    simp only [processQueue, List.mem_map] at hp
    obtain ⟨w, _, hpe⟩ := hp
    subst hpe
    rfl

/-- Witness for C6: empty refresh cookie, one parked waiter, immediate
teardown with no refresh POST. -/
theorem C6_no_refresh_credential_witness :
    tokenManager.getRefreshToken ⟨some "acc", none⟩ = none ∧
    onResponseError ⟨false, [⟨7, ⟨"/q", none, false⟩⟩]⟩ ⟨some "acc", none⟩
        ⟨⟨"/t", some "Bearer acc", false⟩, some 401⟩ 9 =
      { state := ⟨true, []⟩, store := ⟨none, none⟩,
        effects := [Effect.redirect "/auth/login"],
        settledWaiters := [(⟨7, ⟨"/q", none, false⟩⟩,
          WaiterOutcome.rejectedWith ⟨⟨"/t", some "Bearer acc", false⟩, some 401⟩)],
        result := HandlerResult.rejected ⟨⟨"/t", some "Bearer acc", false⟩, some 401⟩ } :=
  ⟨rfl, (C6_no_refresh_credential ⟨false, [⟨7, ⟨"/q", none, false⟩⟩]⟩ ⟨some "acc", none⟩
    ⟨⟨"/t", some "Bearer acc", false⟩, some 401⟩ 9 rfl rfl rfl rfl).1⟩

/-- Counterexample to C7 as stated: the refresh POST is issued on bare
axios with no per-call config, so it carries no bounded timeout (the
library default disables the timeout); only the intercepted `api` instance
carries the 10000 ms timeout. -/
theorem C7_counterexample : hasBoundedTimeout refreshCallSetup = false := by
  decide

/-- Amended C7: the intercepted `api` instance is created with a bounded
10000 ms timeout, but the refresh exchange is issued through bare
`axios.post` with no timeout configured, so the refresh POST itself is not
bounded by any configured timeout. -/
theorem C7_timeout_configuration :
    apiInstanceSetup.timeout = some 10000 ∧
    hasBoundedTimeout apiInstanceSetup = true ∧
    refreshCallSetup.timeout = none ∧
    hasBoundedTimeout refreshCallSetup = false := by
  decide

/-- Counterexample to C10 as stated: a request resumed from the wait list
is replayed without its `_retry` flag (`traceBReplayCfg.retryFlag =
false`), so when that replay itself receives a 401 after the settlement
reset `isRefreshing`, the same original request starts a second refresh
POST — the trace performs two refresh POSTs, and request B's
refresh-and-replay process does not terminate after one refresh and one
replay. -/
theorem C10_counterexample :
    traceB.result = HandlerResult.queuedWaiter ⟨1, ⟨"/b", none, false⟩⟩ ∧
    traceSettle.settledWaiters
      = [(⟨1, ⟨"/b", none, false⟩⟩, WaiterOutcome.resolvedWith (some "acc1"))] ∧
    waiterContinuation ⟨1, ⟨"/b", none, false⟩⟩ (WaiterOutcome.resolvedWith (some "acc1"))
      = WaiterFinal.replayDispatched traceBReplayCfg ∧
    traceBReplayCfg.retryFlag = false ∧
    traceBSecond.result = HandlerResult.refreshStarted "ref1" ∧
    countRefreshPosts (traceA.effects ++ traceSettle.effects ++ traceBSecond.effects) = 2 := by
  decide

/-- Amended C10: the refresh POST is issued on bare axios, so its
settlement (even a 401 from the refresh endpoint) feeds the continuation
directly and never re-enters the 401 interceptor; the request that
triggered the refresh carries the `_retry` flag on its replay, so its
end-to-end flow performs at most one refresh POST and at most one replay.
(A request resumed from the wait list is replayed without the flag, so a
401 on such a replay may start one further refresh.) -/
theorem C10_no_recursive_refresh (st : RefreshState) (store : Store) (err : ApiError)
    (wid : Nat) (out : RefreshOutcome) (rr : ReplayResponse) :
    countRefreshPosts (triggerFlow st store err wid out rr) ≤ 1 ∧
    countReplays (triggerFlow st store err wid out rr) ≤ 1 := by
  unfold triggerFlow
  cases h1 : (onResponseError st store err wid).result with
  | rejected e =>
    have h0 := onResponseError_not_refreshStarted_counts st store err wid (by simp [h1])
    exact ⟨le_of_eq_of_le h0.1 (by omega), le_of_eq_of_le h0.2 (by omega)⟩
  | queuedWaiter w =>
    have h0 := onResponseError_not_refreshStarted_counts st store err wid (by simp [h1])
    exact ⟨le_of_eq_of_le h0.1 (by omega), le_of_eq_of_le h0.2 (by omega)⟩
  | replayed c =>
    have h0 := onResponseError_not_refreshStarted_counts st store err wid (by simp [h1])
    exact ⟨le_of_eq_of_le h0.1 (by omega), le_of_eq_of_le h0.2 (by omega)⟩
  | refreshStarted rt =>
    have he1 : (onResponseError st store err wid).effects = [Effect.refreshPost rt] :=
      onResponseError_refreshStarted_effects st store err wid rt h1
    have h2c := onRefreshSettled_counts (onResponseError st store err wid).state
      (onResponseError st store err wid).store err out
    have hA1 : countRefreshPosts [Effect.refreshPost rt] = 1 := rfl
    have hA2 : countReplays [Effect.refreshPost rt] = 0 := rfl
    cases h2 : (onRefreshSettled (onResponseError st store err wid).state
        (onResponseError st store err wid).store err out).result with
    | rejected e =>
      refine ⟨?_, ?_⟩
      · rw [countRefreshPosts_append, he1, hA1, h2c.1]
      · rw [countReplays_append, he1, hA2]
        have := h2c.2
        omega
    | queuedWaiter w =>
      refine ⟨?_, ?_⟩
      · rw [countRefreshPosts_append, he1, hA1, h2c.1]
      · rw [countReplays_append, he1, hA2]
        have := h2c.2
        omega
    | refreshStarted rt2 =>
      refine ⟨?_, ?_⟩
      · rw [countRefreshPosts_append, he1, hA1, h2c.1]
      · rw [countReplays_append, he1, hA2]
        have := h2c.2
        omega
    | replayed rcfg =>
      obtain ⟨hflag, he2⟩ := onRefreshSettled_replayed (onResponseError st store err wid).state
        (onResponseError st store err wid).store err out rcfg h2
      have hB1 : countRefreshPosts [Effect.replay rcfg] = 0 := rfl
      have hB2 : countReplays [Effect.replay rcfg] = 1 := rfl
      cases rr with
      | success =>
        refine ⟨?_, ?_⟩
        · rw [countRefreshPosts_append, he1, he2, hA1, hB1]
        · rw [countReplays_append, he1, he2, hA2, hB2]
      | failure s =>
        have he3 : (onResponseError
            (onRefreshSettled (onResponseError st store err wid).state
              (onResponseError st store err wid).store err out).state
            (onRefreshSettled (onResponseError st store err wid).state
              (onResponseError st store err wid).store err out).store
            ⟨rcfg, s⟩ (wid + 1)).effects = otherErrorToasts s := by
          rw [onResponseError_retryFlag_true _ _ ⟨rcfg, s⟩ (wid + 1) hflag]
        have htc := otherErrorToasts_counts s
        refine ⟨?_, ?_⟩
        · rw [countRefreshPosts_append, countRefreshPosts_append, he1, he2, he3,
            hA1, hB1, htc.1]
        · rw [countReplays_append, countReplays_append, he1, he2, he3,
            hA2, hB2, htc.2]
